import Mathlib

/-
Verification development for the egui-desktop title-bar library.

The definitions below are a shallow embedding of the Rust sources:
  src/menu/shortcuts.rs   (KeyboardShortcut, parsing, display, just_pressed)
  src/menu/items.rs       (SubMenuItem and its Clone impl)
  src/theme/mod.rs        (TitleBarTheme, built-ins, overrides, dark-mode detection)
  src/theme/api.rs        (TitleBar::switch_theme, apply_theme_mode)
  src/titlebar/api.rs     (custom icon management)
External egui types (Key, Modifiers, Color32, Visuals, input state) are
modelled by the parts of them this crate actually uses.
-/

namespace EguiDesktop

/-- Decidable equality for Except values with decidable components. -/
instance exceptDecEq {ε α : Type} [DecidableEq ε] [DecidableEq α] :
    DecidableEq (Except ε α)
  | .ok a, .ok b =>
    if h : a = b then .isTrue (by rw [h]) else .isFalse (by intro hh; cases hh; exact h rfl)
  | .error a, .error b =>
    if h : a = b then .isTrue (by rw [h]) else .isFalse (by intro hh; cases hh; exact h rfl)
  | .ok _, .error _ => .isFalse (by intro hh; cases hh)
  | .error _, .ok _ => .isFalse (by intro hh; cases hh)

/-- Modelled from the external egui crate: the key type, restricted to the
constructors reachable from KeyboardShortcut::from_string. Constructor names
follow the Rust variant names, so Rust Debug formatting of a key is exactly
the constructor name. -/
inductive Key where
  | A | B | C | D | E | F | G | H | I | J | K | L | M
  | N | O | P | Q | R | S | T | U | V | W | X | Y | Z
  | Num0 | Num1 | Num2 | Num3 | Num4 | Num5 | Num6 | Num7 | Num8 | Num9
  | F1 | F2 | F3 | F4 | F5 | F6 | F7 | F8 | F9 | F10 | F11 | F12
  | Enter | Space | Tab | Escape | Backspace | Delete
  | Home | End | PageUp | PageDown
  | ArrowUp | ArrowDown | ArrowLeft | ArrowRight
  | Minus | Equals | OpenBracket | CloseBracket | Semicolon | Quote
  | Backtick | Backslash | Comma | Period | Slash
  deriving DecidableEq, Repr

/-- Modelled from the external egui crate: Modifiers with fields alt, ctrl,
shift, mac_cmd, command (all false by default). -/
structure Modifiers where
  alt : Bool
  ctrl : Bool
  shift : Bool
  mac_cmd : Bool
  command : Bool
  deriving DecidableEq, Repr

/-- Modelled from the external egui crate: Modifiers::default has every
field false. -/
def Modifiers.default : Modifiers :=
  { alt := false, ctrl := false, shift := false, mac_cmd := false, command := false }

instance : Inhabited Modifiers := ⟨Modifiers.default⟩

/-- KeyboardShortcut from src/menu/shortcuts.rs lines 15-21. -/
structure KeyboardShortcut where
  key : Key
  modifiers : Modifiers
  deriving DecidableEq, Repr

/-- ShortcutParseError from src/menu/shortcuts.rs lines 27-35. -/
inductive ShortcutParseError where
  | InvalidKey (token : String)
  | InvalidModifier (token : String)
  | InvalidFormat (token : String)
  deriving DecidableEq, Repr

/-- Rust str::split on one separator character, yielding the parts between
occurrences; an empty string yields one empty part, so the result is never
the empty list. -/
def splitChar (sep : Char) : List Char → List (List Char)
  | [] => [[]]
  | c :: cs =>
    let rest := splitChar sep cs
    if c == sep then
      [] :: rest
    else
      match rest with
      | [] => [[c]]
      | h :: t => (c :: h) :: t

/-- The parts of shortcut.split, as strings. -/
def rustSplitPlus (s : String) : List String :=
  (splitChar '+' s.data).map String.mk

/-- Rust str::to_lowercase restricted to its ASCII fragment (every token
recognised by the parser is ASCII). -/
def rustToLower (s : String) : String :=
  String.mk (s.data.map Char.toLower)

/-- The modifier-parsing loop of from_string (src/menu/shortcuts.rs lines
66-75): each non-final token is lowercased and matched; unknown tokens fail
with InvalidModifier carrying the original (non-lowercased) token. -/
def parseModifierTokens : List String → Modifiers → Except ShortcutParseError Modifiers
  | [], m => .ok m
  | part :: rest, m =>
    match rustToLower part with
    | "ctrl" | "control" => parseModifierTokens rest { m with ctrl := true }
    | "alt" => parseModifierTokens rest { m with alt := true }
    | "shift" => parseModifierTokens rest { m with shift := true }
    | "cmd" | "meta" | "super" => parseModifierTokens rest { m with command := true }
    | _ => .error (.InvalidModifier part)

/-- The key match of from_string (src/menu/shortcuts.rs lines 78-163),
applied to the lowercased final token. -/
def parseKeyToken (key_str : String) : Except ShortcutParseError Key :=
  match key_str with
  | "a" => .ok .A
  | "b" => .ok .B
  | "c" => .ok .C
  | "d" => .ok .D
  | "e" => .ok .E
  | "f" => .ok .F
  | "g" => .ok .G
  | "h" => .ok .H
  | "i" => .ok .I
  | "j" => .ok .J
  | "k" => .ok .K
  | "l" => .ok .L
  | "m" => .ok .M
  | "n" => .ok .N
  | "o" => .ok .O
  | "p" => .ok .P
  | "q" => .ok .Q
  | "r" => .ok .R
  | "s" => .ok .S
  | "t" => .ok .T
  | "u" => .ok .U
  | "v" => .ok .V
  | "w" => .ok .W
  | "x" => .ok .X
  | "y" => .ok .Y
  | "z" => .ok .Z
  | "0" => .ok .Num0
  | "1" => .ok .Num1
  | "2" => .ok .Num2
  | "3" => .ok .Num3
  | "4" => .ok .Num4
  | "5" => .ok .Num5
  | "6" => .ok .Num6
  | "7" => .ok .Num7
  | "8" => .ok .Num8
  | "9" => .ok .Num9
  | "f1" => .ok .F1
  | "f2" => .ok .F2
  | "f3" => .ok .F3
  | "f4" => .ok .F4
  | "f5" => .ok .F5
  | "f6" => .ok .F6
  | "f7" => .ok .F7
  | "f8" => .ok .F8
  | "f9" => .ok .F9
  | "f10" => .ok .F10
  | "f11" => .ok .F11
  | "f12" => .ok .F12
  | "enter" | "return" => .ok .Enter
  | "space" => .ok .Space
  | "tab" => .ok .Tab
  | "escape" | "esc" => .ok .Escape
  | "backspace" => .ok .Backspace
  | "delete" | "del" => .ok .Delete
  | "home" => .ok .Home
  | "end" => .ok .End
  | "pageup" | "pgup" => .ok .PageUp
  | "pagedown" | "pgdown" => .ok .PageDown
  | "up" => .ok .ArrowUp
  | "down" => .ok .ArrowDown
  | "left" => .ok .ArrowLeft
  | "right" => .ok .ArrowRight
  | "-" | "minus" => .ok .Minus
  | "=" | "plus" => .ok .Equals
  | "[" => .ok .OpenBracket
  | "]" => .ok .CloseBracket
  | ";" => .ok .Semicolon
  | "\x27" => .ok .Quote
  | "`" => .ok .Backtick
  | "\\" => .ok .Backslash
  | "," => .ok .Comma
  | "." => .ok .Period
  | "/" => .ok .Slash
  | _ => .error (.InvalidKey key_str)

/-- KeyboardShortcut::from_string (src/menu/shortcuts.rs lines 55-166):
split on the plus sign, reject an empty part list as InvalidFormat (note
that Rust split never yields an empty list, so that guard is dead code),
parse the non-final tokens as modifiers, then the lowercased final token as
the key. -/
def from_string (shortcut : String) : Except ShortcutParseError KeyboardShortcut :=
  let parts := rustSplitPlus shortcut
  if parts.isEmpty then
    .error (.InvalidFormat shortcut)
  else
    let key_str := rustToLower (parts.getLastD "")
    match parseModifierTokens parts.dropLast Modifiers.default with
    | .error e => .error e
    | .ok modifiers =>
      match parseKeyToken key_str with
      | .error e => .error e
      | .ok key => .ok { key := key, modifiers := modifiers }

/-- KeyboardShortcut::matches (src/menu/shortcuts.rs lines 181-183): exact
equality on key and full modifier set. -/
def KeyboardShortcut.matches (sc : KeyboardShortcut) (key : Key) (modifiers : Modifiers) : Bool :=
  sc.key == key && sc.modifiers == modifiers

/-- Modelled from the external egui crate: Key::name, the human-readable
display name used by display_string. Only the alphanumeric and function-key
names are exercised by the theorems below. -/
def Key.name : Key → String
  | .A => "A" | .B => "B" | .C => "C" | .D => "D" | .E => "E" | .F => "F"
  | .G => "G" | .H => "H" | .I => "I" | .J => "J" | .K => "K" | .L => "L"
  | .M => "M" | .N => "N" | .O => "O" | .P => "P" | .Q => "Q" | .R => "R"
  | .S => "S" | .T => "T" | .U => "U" | .V => "V" | .W => "W" | .X => "X"
  | .Y => "Y" | .Z => "Z"
  | .Num0 => "0" | .Num1 => "1" | .Num2 => "2" | .Num3 => "3" | .Num4 => "4"
  | .Num5 => "5" | .Num6 => "6" | .Num7 => "7" | .Num8 => "8" | .Num9 => "9"
  | .F1 => "F1" | .F2 => "F2" | .F3 => "F3" | .F4 => "F4" | .F5 => "F5"
  | .F6 => "F6" | .F7 => "F7" | .F8 => "F8" | .F9 => "F9" | .F10 => "F10"
  | .F11 => "F11" | .F12 => "F12"
  | .Enter => "Enter" | .Space => "Space" | .Tab => "Tab" | .Escape => "Escape"
  | .Backspace => "Backspace" | .Delete => "Delete"
  | .Home => "Home" | .End => "End" | .PageUp => "PageUp" | .PageDown => "PageDown"
  | .ArrowUp => "Up" | .ArrowDown => "Down" | .ArrowLeft => "Left" | .ArrowRight => "Right"
  | .Minus => "Minus" | .Equals => "Plus" | .OpenBracket => "[" | .CloseBracket => "]"
  | .Semicolon => ";" | .Quote => "\x27" | .Backtick => "Backtick"
  | .Backslash => "\\" | .Comma => "Comma" | .Period => "Period" | .Slash => "/"

/-- KeyboardShortcut::display_string (src/menu/shortcuts.rs lines 227-245):
append Ctrl+, Alt+, Shift+, Cmd+ in that fixed order for each required
modifier, then the key display name. -/
def KeyboardShortcut.display_string (sc : KeyboardShortcut) : String :=
  let result := ""
  let result := if sc.modifiers.ctrl then result ++ "Ctrl+" else result
  let result := if sc.modifiers.alt then result ++ "Alt+" else result
  let result := if sc.modifiers.shift then result ++ "Shift+" else result
  let result := if sc.modifiers.command then result ++ "Cmd+" else result
  result ++ sc.key.name

/-- Modelled from the external egui crate: the slice of per-frame input
state read by just_pressed — key_pressed(key) and the modifier booleans. -/
structure InputFrame where
  pressed : Key → Bool
  modifiers : Modifiers

/-- Rust Display of a Bool, used in the shortcut identity string. -/
def boolStr : Bool → String
  | true => "true"
  | false => "false"

/-- Rust Debug formatting of a Key: the variant name. -/
def Key.debugStr : Key → String
  | .A => "A" | .B => "B" | .C => "C" | .D => "D" | .E => "E" | .F => "F"
  | .G => "G" | .H => "H" | .I => "I" | .J => "J" | .K => "K" | .L => "L"
  | .M => "M" | .N => "N" | .O => "O" | .P => "P" | .Q => "Q" | .R => "R"
  | .S => "S" | .T => "T" | .U => "U" | .V => "V" | .W => "W" | .X => "X"
  | .Y => "Y" | .Z => "Z"
  | .Num0 => "Num0" | .Num1 => "Num1" | .Num2 => "Num2" | .Num3 => "Num3"
  | .Num4 => "Num4" | .Num5 => "Num5" | .Num6 => "Num6" | .Num7 => "Num7"
  | .Num8 => "Num8" | .Num9 => "Num9"
  | .F1 => "F1" | .F2 => "F2" | .F3 => "F3" | .F4 => "F4" | .F5 => "F5"
  | .F6 => "F6" | .F7 => "F7" | .F8 => "F8" | .F9 => "F9" | .F10 => "F10"
  | .F11 => "F11" | .F12 => "F12"
  | .Enter => "Enter" | .Space => "Space" | .Tab => "Tab" | .Escape => "Escape"
  | .Backspace => "Backspace" | .Delete => "Delete"
  | .Home => "Home" | .End => "End" | .PageUp => "PageUp" | .PageDown => "PageDown"
  | .ArrowUp => "ArrowUp" | .ArrowDown => "ArrowDown"
  | .ArrowLeft => "ArrowLeft" | .ArrowRight => "ArrowRight"
  | .Minus => "Minus" | .Equals => "Equals" | .OpenBracket => "OpenBracket"
  | .CloseBracket => "CloseBracket" | .Semicolon => "Semicolon" | .Quote => "Quote"
  | .Backtick => "Backtick" | .Backslash => "Backslash" | .Comma => "Comma"
  | .Period => "Period" | .Slash => "Slash"

/-- The unique identity string built by just_pressed (src/menu/shortcuts.rs
lines 188-195): Debug of the key and the four modifier booleans joined by
underscores. -/
def KeyboardShortcut.stateKey (sc : KeyboardShortcut) : String :=
  sc.key.debugStr ++ "_" ++ boolStr sc.modifiers.ctrl ++ "_" ++ boolStr sc.modifiers.alt
    ++ "_" ++ boolStr sc.modifiers.shift ++ "_" ++ boolStr sc.modifiers.command

/-- The current_frame_pressed closure of just_pressed (src/menu/shortcuts.rs
lines 198-213): the key was pressed this frame, Ctrl is matched accepting
either ctrl or command when required and rejecting both when not, and Alt
and Shift are matched exactly. -/
def KeyboardShortcut.currentFramePressed (sc : KeyboardShortcut) (i : InputFrame) : Bool :=
  let key_pressed := i.pressed sc.key
  let ctrl_held := i.modifiers.ctrl || i.modifiers.command
  let ctrl_match := if sc.modifiers.ctrl then ctrl_held else !ctrl_held
  let alt_match := i.modifiers.alt == sc.modifiers.alt
  let shift_match := i.modifiers.shift == sc.modifiers.shift
  key_pressed && ctrl_match && alt_match && shift_match

/-- The global SHORTCUT_STATES table (src/menu/shortcuts.rs lines 6-8),
modelled as a total map with false for absent keys (matching the
unwrap_or(false) read). -/
def ShortcutStates := String → Bool

/-- The empty state table at process start: every lookup misses, so every
entry reads as false. -/
def ShortcutStates.initial : ShortcutStates := fun _ => false

/-- KeyboardShortcut::just_pressed (src/menu/shortcuts.rs lines 186-224) as
an explicit state transformer: read the previous satisfied flag under the
shortcut identity, store the current one, and return true only on the
false-to-true transition. -/
def KeyboardShortcut.justPressed (sc : KeyboardShortcut) (i : InputFrame)
    (states : ShortcutStates) : Bool × ShortcutStates :=
  let shortcut_key := sc.stateKey
  let current_frame_pressed := sc.currentFramePressed i
  let was_pressed := states shortcut_key
  (current_frame_pressed && !was_pressed,
    fun s => if s == shortcut_key then current_frame_pressed else states s)

/-- Repeated calls of just_pressed for one shortcut over a sequence of
frames, threading the global state table; returns the per-frame results. -/
def runJustPressed (sc : KeyboardShortcut) : List InputFrame → ShortcutStates → List Bool
  | [], _ => []
  | f :: fs, states =>
    let step := sc.justPressed f states
    step.1 :: runJustPressed sc fs step.2

/-- Modelled from the external egui crate: Color32 as an rgba quadruple. -/
structure Color32 where
  r : Nat
  g : Nat
  b : Nat
  a : Nat
  deriving DecidableEq, Repr

/-- Modelled from the external egui crate: Color32::from_rgb (opaque). -/
def Color32.from_rgb (r g b : Nat) : Color32 := ⟨r, g, b, 255⟩

/-- Modelled from the external egui crate: Color32::WHITE. -/
def Color32.WHITE : Color32 := ⟨255, 255, 255, 255⟩

/-- ThemeMode from src/theme/mod.rs lines 7-15. -/
inductive ThemeMode where
  | Light
  | Dark
  | System
  deriving DecidableEq, Repr

/-- TitleBarTheme from src/theme/mod.rs lines 18-60. The two f32 size
fields are modelled as rationals (they are only stored and compared, never
computed with). -/
structure TitleBarTheme where
  background_color : Color32
  hover_color : Color32
  close_hover_color : Color32
  close_icon_color : Color32
  maximize_icon_color : Color32
  restore_icon_color : Color32
  minimize_icon_color : Color32
  title_color : Color32
  menu_text_color : Color32
  menu_text_size : ℚ
  menu_hover_color : Color32
  keyboard_selection_color : Color32
  submenu_background_color : Color32
  submenu_text_color : Color32
  submenu_text_size : ℚ
  submenu_hover_color : Color32
  submenu_disabled_color : Color32
  submenu_shortcut_color : Color32
  submenu_border_color : Color32
  submenu_keyboard_selection_color : Color32
  deriving DecidableEq, Repr

/-- TitleBarTheme::light (src/theme/mod.rs lines 87-110). -/
def TitleBarTheme.light : TitleBarTheme where
  background_color := Color32.WHITE
  hover_color := Color32.from_rgb 230 230 230
  close_hover_color := Color32.from_rgb 232 17 35
  close_icon_color := Color32.from_rgb 100 100 100
  maximize_icon_color := Color32.from_rgb 100 100 100
  restore_icon_color := Color32.from_rgb 100 100 100
  minimize_icon_color := Color32.from_rgb 100 100 100
  title_color := Color32.from_rgb 50 50 50
  menu_text_color := Color32.from_rgb 50 50 50
  menu_text_size := 12
  menu_hover_color := Color32.from_rgb 230 230 230
  keyboard_selection_color := Color32.from_rgb 0 120 215
  submenu_background_color := Color32.WHITE
  submenu_text_color := Color32.from_rgb 50 50 50
  submenu_text_size := 11
  submenu_hover_color := Color32.from_rgb 240 240 240
  submenu_disabled_color := Color32.from_rgb 150 150 150
  submenu_shortcut_color := Color32.from_rgb 100 100 100
  submenu_border_color := Color32.from_rgb 200 200 200
  submenu_keyboard_selection_color := Color32.from_rgb 0 120 215

/-- TitleBarTheme::dark (src/theme/mod.rs lines 113-136). -/
def TitleBarTheme.dark : TitleBarTheme where
  background_color := Color32.from_rgb 30 30 30
  hover_color := Color32.from_rgb 60 60 60
  close_hover_color := Color32.from_rgb 232 17 35
  close_icon_color := Color32.from_rgb 200 200 200
  maximize_icon_color := Color32.from_rgb 200 200 200
  restore_icon_color := Color32.from_rgb 200 200 200
  minimize_icon_color := Color32.from_rgb 200 200 200
  title_color := Color32.from_rgb 200 200 200
  menu_text_color := Color32.from_rgb 200 200 200
  menu_text_size := 12
  menu_hover_color := Color32.from_rgb 60 60 60
  keyboard_selection_color := Color32.from_rgb 30 144 255
  submenu_background_color := Color32.from_rgb 40 40 40
  submenu_text_color := Color32.from_rgb 200 200 200
  submenu_text_size := 11
  submenu_hover_color := Color32.from_rgb 70 70 70
  submenu_disabled_color := Color32.from_rgb 120 120 120
  submenu_shortcut_color := Color32.from_rgb 160 160 160
  submenu_border_color := Color32.from_rgb 80 80 80
  submenu_keyboard_selection_color := Color32.from_rgb 30 144 255

/-- TitleBarTheme::light_with_overrides (src/theme/mod.rs lines 139-185):
every argument that is some replaces its field of light(), every none
inherits it; submenu_text_size, submenu_disabled_color and
submenu_border_color have no override argument and always inherit. -/
def TitleBarTheme.light_with_overrides
    (background_color : Option Color32)
    (hover_color : Option Color32)
    (close_hover_color : Option Color32)
    (close_icon_color : Option Color32)
    (maximize_icon_color : Option Color32)
    (restore_icon_color : Option Color32)
    (minimize_icon_color : Option Color32)
    (title_color : Option Color32)
    (menu_text_color : Option Color32)
    (menu_text_size : Option ℚ)
    (menu_hover_color : Option Color32)
    (keyboard_selection_color : Option Color32)
    (submenu_background_color : Option Color32)
    (submenu_text_color : Option Color32)
    (submenu_hover_color : Option Color32)
    (submenu_shortcut_color : Option Color32)
    (submenu_keyboard_selection_color : Option Color32) : TitleBarTheme :=
  let dflt := TitleBarTheme.light
  { background_color := background_color.getD dflt.background_color
    hover_color := hover_color.getD dflt.hover_color
    close_hover_color := close_hover_color.getD dflt.close_hover_color
    close_icon_color := close_icon_color.getD dflt.close_icon_color
    maximize_icon_color := maximize_icon_color.getD dflt.maximize_icon_color
    restore_icon_color := restore_icon_color.getD dflt.restore_icon_color
    minimize_icon_color := minimize_icon_color.getD dflt.minimize_icon_color
    title_color := title_color.getD dflt.title_color
    menu_text_color := menu_text_color.getD dflt.menu_text_color
    menu_text_size := menu_text_size.getD dflt.menu_text_size
    menu_hover_color := menu_hover_color.getD dflt.menu_hover_color
    keyboard_selection_color := keyboard_selection_color.getD dflt.keyboard_selection_color
    submenu_background_color := submenu_background_color.getD dflt.submenu_background_color
    submenu_text_color := submenu_text_color.getD dflt.submenu_text_color
    submenu_text_size := dflt.submenu_text_size
    submenu_hover_color := submenu_hover_color.getD dflt.submenu_hover_color
    submenu_disabled_color := dflt.submenu_disabled_color
    submenu_shortcut_color := submenu_shortcut_color.getD dflt.submenu_shortcut_color
    submenu_border_color := dflt.submenu_border_color
    submenu_keyboard_selection_color :=
      submenu_keyboard_selection_color.getD dflt.submenu_keyboard_selection_color }

/-- The target platform cfg branches of detect_system_dark_mode
(src/theme/mod.rs lines 240-299). -/
inductive Platform where
  | windows
  | macos
  | linux
  | other
  deriving DecidableEq, Repr

/-- Rust str::contains for a substring pattern. -/
def strContains (s pat : String) : Bool :=
  s.toList.tails.any fun t => pat.toList.isPrefixOf t

/-- detect_system_dark_mode (src/theme/mod.rs lines 240-299). The external
process invocation (registry query, defaults read, gsettings) is replaced by
its outcome cmdOutput, and the GTK_THEME environment lookup of the Linux
fallback by envGtkTheme; an error value stands for a failed command or an
unset variable. Windows: dark unless the output mentions 0x1; macOS: dark
when the output mentions Dark; Linux: command output checked for dark/Dark,
falling back to GTK_THEME on command failure; unknown platforms: light. -/
def detect_system_dark_mode (p : Platform) (cmdOutput : Except Unit String)
    (envGtkTheme : Except Unit String) : Bool :=
  match p with
  | .windows =>
    match cmdOutput with
    | .ok output => !(strContains output "0x1")
    | .error _ => false
  | .macos =>
    match cmdOutput with
    | .ok output => strContains output "Dark"
    | .error _ => false
  | .linux =>
    match cmdOutput with
    | .ok output => strContains output "dark" || strContains output "Dark"
    | .error _ =>
      match envGtkTheme with
      | .ok theme => strContains theme "dark" || strContains theme "Dark"
      | .error _ => false
  | .other => false

/-- ThemeError from src/theme/mod.rs lines 73-77. -/
inductive ThemeError where
  | ThemeNotFound
  deriving DecidableEq, Repr

/-- Modelled from the external egui crate: Visuals, reduced to the one
field this crate reads (dark_mode); set_visuals replaces the context value
wholesale, so the reduced model is faithful for the claims below. -/
structure Visuals where
  dark_mode : Bool
  deriving DecidableEq, Repr

/-- Modelled from the external egui crate: the context state touched by
switch_theme, namely the visuals installed via set_visuals. -/
structure Ctx where
  visuals : Visuals
  deriving DecidableEq, Repr

/-- ThemeProvider trait (src/theme/mod.rs lines 63-70) as a record of its
three capability functions. -/
structure ThemeProviderModel where
  getTitleBarTheme : String → ThemeMode → Option TitleBarTheme
  getEguiVisuals : String → ThemeMode → Option Visuals
  listAvailableThemes : List String

/-- Opaque stand-in for the Box dyn Fn() callback type: callbacks are only
stored and dropped by the operations verified here, never compared. -/
def Callback := Unit → Unit

/-- Opaque stand-in for an egui ImageSource (identified by its uri). -/
def ImageSource := String

/-- Opaque stand-in for the Drawn icon closure. -/
def DrawFn := Unit

/-- Opaque stand-in for the Animated icon closure. -/
def AnimatedDrawFn := Unit

/-- Opaque stand-in for the AnimatedUi icon closure. -/
def AnimatedUiDrawFn := Unit

/-- CustomIcon from src/titlebar/main.rs lines 8-29. -/
inductive CustomIcon where
  | Image (source : ImageSource)
  | Drawn (f : DrawFn)
  | Animated (f : AnimatedDrawFn)
  | AnimatedUi (f : AnimatedUiDrawFn)

/-- CustomIconButton from src/titlebar/main.rs lines 32-45. -/
structure CustomIconButton where
  icon : CustomIcon
  tooltip : Option String
  hover_color : Option Color32
  icon_color : Option Color32
  callback : Option Callback
  shortcut : Option KeyboardShortcut

instance : Inhabited CustomIconButton :=
  ⟨{ icon := .Image "", tooltip := none, hover_color := none, icon_color := none,
     callback := none, shortcut := none }⟩

/-- IconAnimationState from src/titlebar/main.rs lines 278-288, float
progress values modelled as rationals. -/
structure IconAnimationState where
  hover_t : ℚ
  press_t : ℚ
  last_time : ℚ
  progress : ℚ
  deriving DecidableEq, Repr

instance : Inhabited IconAnimationState := ⟨⟨0, 0, 0, 0⟩⟩

/-- TitleBar (src/titlebar/main.rs lines 48-158), restricted to the fields
the verified operations read or write: the twenty-one theme-related fields
(the twenty theme colors/sizes plus current_theme_id), the theme mode and
provider, and the custom icon lists. -/
structure TitleBar where
  theme_mode : ThemeMode
  theme_provider : Option ThemeProviderModel
  current_theme_id : Option String
  background_color : Color32
  hover_color : Color32
  close_hover_color : Color32
  close_icon_color : Color32
  maximize_icon_color : Color32
  restore_icon_color : Color32
  minimize_icon_color : Color32
  title_color : Color32
  menu_text_color : Color32
  menu_text_size : ℚ
  menu_hover_color : Color32
  keyboard_selection_color : Color32
  submenu_background_color : Color32
  submenu_text_color : Color32
  submenu_text_size : ℚ
  submenu_hover_color : Color32
  submenu_disabled_color : Color32
  submenu_shortcut_color : Color32
  submenu_border_color : Color32
  submenu_keyboard_selection_color : Color32
  custom_icons : List CustomIconButton
  icon_animation_states : List IconAnimationState

/-- TitleBar::apply_theme (src/theme/api.rs lines 363-385): copy all twenty
theme fields onto the title bar. -/
def TitleBar.apply_theme (tb : TitleBar) (theme : TitleBarTheme) : TitleBar :=
  { tb with
    background_color := theme.background_color
    hover_color := theme.hover_color
    close_hover_color := theme.close_hover_color
    close_icon_color := theme.close_icon_color
    maximize_icon_color := theme.maximize_icon_color
    restore_icon_color := theme.restore_icon_color
    minimize_icon_color := theme.minimize_icon_color
    title_color := theme.title_color
    menu_text_color := theme.menu_text_color
    menu_text_size := theme.menu_text_size
    menu_hover_color := theme.menu_hover_color
    keyboard_selection_color := theme.keyboard_selection_color
    submenu_background_color := theme.submenu_background_color
    submenu_text_color := theme.submenu_text_color
    submenu_text_size := theme.submenu_text_size
    submenu_hover_color := theme.submenu_hover_color
    submenu_disabled_color := theme.submenu_disabled_color
    submenu_shortcut_color := theme.submenu_shortcut_color
    submenu_border_color := theme.submenu_border_color
    submenu_keyboard_selection_color := theme.submenu_keyboard_selection_color }

/-- TitleBar::switch_theme (src/theme/api.rs lines 14-36): collect the
provider outputs (none and none when no provider is attached); when a title
bar theme is found, apply it, install the visuals when present, and record
the theme id; otherwise fail with ThemeNotFound touching nothing. -/
def TitleBar.switch_theme (tb : TitleBar) (ctx : Ctx) (theme_id : String) :
    TitleBar × Ctx × Except ThemeError Unit :=
  let mode := tb.theme_mode
  let outputs :=
    match tb.theme_provider with
    | some provider =>
      (provider.getTitleBarTheme theme_id mode, provider.getEguiVisuals theme_id mode)
    | none => (none, none)
  match outputs with
  | (some tb_theme, visuals_opt) =>
    let tb := tb.apply_theme tb_theme
    let ctx :=
      match visuals_opt with
      | some visuals => { ctx with visuals := visuals }
      | none => ctx
    ({ tb with current_theme_id := some theme_id }, ctx, .ok ())
  | (none, _) => (tb, ctx, .error ThemeError.ThemeNotFound)

/-- TitleBar::apply_theme_mode (src/theme/api.rs lines 326-361): pick the
built-in theme for the mode (for System, according to the dark-mode
detection outcome, passed here as systemDark) and copy its twenty fields
onto the title bar. -/
def TitleBar.apply_theme_mode (tb : TitleBar) (systemDark : Bool) : TitleBar :=
  let theme :=
    match tb.theme_mode with
    | .Light => TitleBarTheme.light
    | .Dark => TitleBarTheme.dark
    | .System => if systemDark then TitleBarTheme.dark else TitleBarTheme.light
  { tb with
    background_color := theme.background_color
    hover_color := theme.hover_color
    close_hover_color := theme.close_hover_color
    close_icon_color := theme.close_icon_color
    maximize_icon_color := theme.maximize_icon_color
    restore_icon_color := theme.restore_icon_color
    minimize_icon_color := theme.minimize_icon_color
    title_color := theme.title_color
    menu_text_color := theme.menu_text_color
    menu_text_size := theme.menu_text_size
    menu_hover_color := theme.menu_hover_color
    keyboard_selection_color := theme.keyboard_selection_color
    submenu_background_color := theme.submenu_background_color
    submenu_text_color := theme.submenu_text_color
    submenu_text_size := theme.submenu_text_size
    submenu_hover_color := theme.submenu_hover_color
    submenu_disabled_color := theme.submenu_disabled_color
    submenu_shortcut_color := theme.submenu_shortcut_color
    submenu_border_color := theme.submenu_border_color
    submenu_keyboard_selection_color := theme.submenu_keyboard_selection_color }

/-- TitleBar::add_icon (src/titlebar/api.rs lines 197-217): push the new
button, then push a default animation state only when the icon just pushed
(the last element) is the Animated variant. -/
def TitleBar.add_icon (tb : TitleBar) (icon : CustomIcon)
    (callback : Option Callback) (tooltip : Option String)
    (shortcut : Option KeyboardShortcut) : TitleBar :=
  let button : CustomIconButton :=
    { icon := icon, tooltip := tooltip, hover_color := none, icon_color := none,
      callback := callback, shortcut := shortcut }
  let tb := { tb with custom_icons := tb.custom_icons ++ [button] }
  match (tb.custom_icons.getLastD button).icon with
  | .Animated _ =>
    { tb with icon_animation_states := tb.icon_animation_states ++ [default] }
  | _ => tb

/-- TitleBar::add_animated_icon (src/titlebar/api.rs lines 220-238). -/
def TitleBar.add_animated_icon (tb : TitleBar) (draw : AnimatedDrawFn)
    (callback : Option Callback) (tooltip : Option String)
    (shortcut : Option KeyboardShortcut) : TitleBar :=
  tb.add_icon (.Animated draw) callback tooltip shortcut

/-- TitleBar::add_animated_ui_icon (src/titlebar/api.rs lines 241-259).
Note the pushed variant is AnimatedUi, which the conditional push inside
add_icon does not treat as Animated. -/
def TitleBar.add_animated_ui_icon (tb : TitleBar) (draw : AnimatedUiDrawFn)
    (callback : Option Callback) (tooltip : Option String)
    (shortcut : Option KeyboardShortcut) : TitleBar :=
  tb.add_icon (.AnimatedUi draw) callback tooltip shortcut

/-- One iteration of the icon loop of render_custom_icons (src/titlebar/
api.rs lines 338-451) restricted to its effect on the stored animation
states: Animated and AnimatedUi icons rewrite the state entry at their
index (via the abstracted easing update u); Image and Drawn icons leave the
states untouched. -/
def renderStateStep (icons : List CustomIconButton)
    (u : Nat → IconAnimationState → IconAnimationState)
    (st : List IconAnimationState) (index : Nat) : List IconAnimationState :=
  match (icons.getD index default).icon with
  | .Animated _ => st.set index (u index (st.getD index default))
  | .AnimatedUi _ => st.set index (u index (st.getD index default))
  | _ => st

/-- TitleBar::render_custom_icons (src/titlebar/api.rs lines 310-452),
restricted to its effect on the stored state: early return when there are
no icons; otherwise grow icon_animation_states with default entries up to
the icon count when shorter, then for each icon index update the state in
place for Animated and AnimatedUi icons. The numeric easing update (f32
exponential approach driven by hover/press/time) is abstracted as the
updateState argument; it only rewrites the entry at the index, so lengths
are unaffected by the abstraction. -/
def TitleBar.render_custom_icons (tb : TitleBar)
    (updateState : Nat → IconAnimationState → IconAnimationState) : TitleBar :=
  if tb.custom_icons.isEmpty then tb
  else
    let states :=
      if tb.icon_animation_states.length < tb.custom_icons.length then
        tb.icon_animation_states ++
          List.replicate (tb.custom_icons.length - tb.icon_animation_states.length) default
      else tb.icon_animation_states
    let states := (List.range tb.custom_icons.length).foldl
      (renderStateStep tb.custom_icons updateState) states
    { tb with icon_animation_states := states }

/-- SubMenuItem from src/menu/items.rs lines 8-21: label, optional
shortcut, enabled flag, separator flag, optional callback, and nested
children. -/
inductive SubMenuItem where
  | mk (label : String) (shortcut : Option KeyboardShortcut) (enabled : Bool)
      (separator_after : Bool) (callback : Option Callback)
      (children : List SubMenuItem)

/-- The label field of a SubMenuItem. -/
def SubMenuItem.label : SubMenuItem → String
  | .mk l _ _ _ _ _ => l

/-- The shortcut field of a SubMenuItem. -/
def SubMenuItem.shortcut : SubMenuItem → Option KeyboardShortcut
  | .mk _ s _ _ _ _ => s

/-- The enabled field of a SubMenuItem. -/
def SubMenuItem.enabled : SubMenuItem → Bool
  | .mk _ _ e _ _ _ => e

/-- The separator_after field of a SubMenuItem. -/
def SubMenuItem.separator_after : SubMenuItem → Bool
  | .mk _ _ _ sep _ _ => sep

/-- The callback field of a SubMenuItem. -/
def SubMenuItem.callback : SubMenuItem → Option Callback
  | .mk _ _ _ _ cb _ => cb

/-- The children field of a SubMenuItem. -/
def SubMenuItem.children : SubMenuItem → List SubMenuItem
  | .mk _ _ _ _ _ ch => ch

/-- The Clone impl for SubMenuItem (src/menu/items.rs lines 35-46): all
plain fields are cloned, the callback is replaced by none (closures cannot
be cloned), and the children are cloned recursively (Vec clone maps the
element clone). -/
def SubMenuItem.clone : SubMenuItem → SubMenuItem
  | .mk l s e sep _cb ch =>
    .mk l s e sep none (ch.attach.map fun c => c.1.clone)
decreasing_by
  have := List.sizeOf_lt_of_mem c.2
  simp only [SubMenuItem.mk.sizeOf_spec]
  omega

/-- True when a SubMenuItem carries no callback at any depth. -/
def SubMenuItem.callbackFreeDeep : SubMenuItem → Bool
  | .mk _ _ _ _ cb ch =>
    cb.isNone && ch.attach.all fun c => c.1.callbackFreeDeep
decreasing_by
  have := List.sizeOf_lt_of_mem c.2
  simp only [SubMenuItem.mk.sizeOf_spec]
  omega

/-- Modelled from the spec: the canonical capitalized display form of a
shortcut — the required modifiers printed in the fixed order Ctrl, Alt,
Shift, Cmd, each followed by a plus sign, then the key display name. Used
only to compare display_string against the spec wording. -/
def canonicalDisplayForm (sc : KeyboardShortcut) : String :=
  (if sc.modifiers.ctrl then "Ctrl+" else "") ++
    (if sc.modifiers.alt then "Alt+" else "") ++
      (if sc.modifiers.shift then "Shift+" else "") ++
        (if sc.modifiers.command then "Cmd+" else "") ++ sc.key.name

/-- The shortcut parsed from ctrl+s. -/
def ctrlS : KeyboardShortcut :=
  { key := .S,
    modifiers := { alt := false, ctrl := true, shift := false, mac_cmd := false, command := false } }

/-- The shortcut parsed from cmd+s: a pure command shortcut. -/
def cmdS : KeyboardShortcut :=
  { key := .S,
    modifiers := { alt := false, ctrl := false, shift := false, mac_cmd := false, command := true } }

/-- A frame in which S is pressed with only Ctrl held. -/
def frameCtrlSHeld : InputFrame :=
  { pressed := fun k => k == Key.S,
    modifiers := { alt := false, ctrl := true, shift := false, mac_cmd := false, command := false } }

/-- A frame with no key pressed and no modifier held. -/
def frameIdle : InputFrame :=
  { pressed := fun _ => false, modifiers := Modifiers.default }

/-- A frame in which S is pressed with only the command key held. -/
def frameCmdSHeld : InputFrame :=
  { pressed := fun k => k == Key.S,
    modifiers := { alt := false, ctrl := false, shift := false, mac_cmd := false, command := true } }

/-- A concrete title bar in Light mode with the light palette, no provider,
no theme id and no custom icons; used to instantiate the theorems below. -/
def lightTitleBar : TitleBar :=
  { theme_mode := ThemeMode.Light
    theme_provider := none
    current_theme_id := none
    background_color := TitleBarTheme.light.background_color
    hover_color := TitleBarTheme.light.hover_color
    close_hover_color := TitleBarTheme.light.close_hover_color
    close_icon_color := TitleBarTheme.light.close_icon_color
    maximize_icon_color := TitleBarTheme.light.maximize_icon_color
    restore_icon_color := TitleBarTheme.light.restore_icon_color
    minimize_icon_color := TitleBarTheme.light.minimize_icon_color
    title_color := TitleBarTheme.light.title_color
    menu_text_color := TitleBarTheme.light.menu_text_color
    menu_text_size := TitleBarTheme.light.menu_text_size
    menu_hover_color := TitleBarTheme.light.menu_hover_color
    keyboard_selection_color := TitleBarTheme.light.keyboard_selection_color
    submenu_background_color := TitleBarTheme.light.submenu_background_color
    submenu_text_color := TitleBarTheme.light.submenu_text_color
    submenu_text_size := TitleBarTheme.light.submenu_text_size
    submenu_hover_color := TitleBarTheme.light.submenu_hover_color
    submenu_disabled_color := TitleBarTheme.light.submenu_disabled_color
    submenu_shortcut_color := TitleBarTheme.light.submenu_shortcut_color
    submenu_border_color := TitleBarTheme.light.submenu_border_color
    submenu_keyboard_selection_color := TitleBarTheme.light.submenu_keyboard_selection_color
    custom_icons := []
    icon_animation_states := [] }

/-- A concrete context holding light visuals. -/
def ctx0 : Ctx := { visuals := { dark_mode := false } }

/-- A variant of the concrete title bar set to System mode. -/
def systemTitleBar : TitleBar := { lightTitleBar with theme_mode := ThemeMode.System }

/-- Closed form of repeated just_pressed calls: with any starting state
table, the result at each frame is the satisfied flag of that frame and
the negated satisfied flag of the previous frame (seeded by the stored
entry for the shortcut identity). -/
theorem runJustPressed_zipWith (sc : KeyboardShortcut) (frames : List InputFrame)
    (st : ShortcutStates) :
    runJustPressed sc frames st =
      List.zipWith (fun cur prev => cur && !prev)
        (frames.map sc.currentFramePressed)
        (st sc.stateKey :: frames.map sc.currentFramePressed) := by
  induction frames generalizing st with
  | nil => rfl
  | cons f fs ih =>
    simp only [runJustPressed, KeyboardShortcut.justPressed, List.map_cons, List.zipWith]
    rw [ih]
    simp

/-- Lifting a predicate over attach: testing the underlying elements is the
same as testing the list directly. -/
theorem all_attach_eq {α : Type} (l : List α) (p : α → Bool) :
    (l.attach.all fun c => p c.1) = l.all p := by
  rw [Bool.eq_iff_iff]
  simp only [List.all_eq_true]
  constructor
  · intro hattach x hx
    exact hattach ⟨x, hx⟩ (List.mem_attach l ⟨x, hx⟩)
  · intro hall c hc
    exact hall c.1 c.2

/-- Unfolding of SubMenuItem.clone on a constructor: the attach in the
definition reduces to a plain map over the children. -/
theorem clone_mk (l : String) (s : Option KeyboardShortcut) (e sep : Bool)
    (cb : Option Callback) (ch : List SubMenuItem) :
    SubMenuItem.clone (.mk l s e sep cb ch) = .mk l s e sep none (ch.map SubMenuItem.clone) := by
  rw [SubMenuItem.clone]
  congr 1
  exact List.attach_map_val ch SubMenuItem.clone

/-- Unfolding of callbackFreeDeep on a constructor. -/
theorem callbackFreeDeep_mk (l : String) (s : Option KeyboardShortcut) (e sep : Bool)
    (cb : Option Callback) (ch : List SubMenuItem) :
    SubMenuItem.callbackFreeDeep (.mk l s e sep cb ch) =
      (cb.isNone && ch.all SubMenuItem.callbackFreeDeep) := by
  rw [SubMenuItem.callbackFreeDeep]
  rw [all_attach_eq]

/-- Every clone is callback-free at every depth. -/
theorem callbackFreeDeep_clone :
    ∀ item : SubMenuItem, SubMenuItem.callbackFreeDeep item.clone = true
  | .mk l s e sep cb ch => by
    rw [clone_mk, callbackFreeDeep_mk]
    simp only [Option.isNone_none, Bool.true_and, List.all_eq_true]
    intro x hx
    obtain ⟨c, hc, rfl⟩ := List.mem_map.mp hx
    exact callbackFreeDeep_clone c
decreasing_by
  have := List.sizeOf_lt_of_mem hc
  simp only [SubMenuItem.mk.sizeOf_spec]
  omega

/-- The render loop step never changes the length of the state list. -/
theorem renderStateStep_length (icons : List CustomIconButton)
    (u : Nat → IconAnimationState → IconAnimationState)
    (st : List IconAnimationState) (index : Nat) :
    (renderStateStep icons u st index).length = st.length := by
  unfold renderStateStep
  rcases (icons.getD index default).icon with _ | _ | _ | _ <;> simp

/-- Folding the render loop step never changes the length of the state
list. -/
theorem foldl_renderStateStep_length (icons : List CustomIconButton)
    (u : Nat → IconAnimationState → IconAnimationState) :
    ∀ (idxs : List Nat) (st : List IconAnimationState),
      (idxs.foldl (renderStateStep icons u) st).length = st.length := by
  intro idxs
  induction idxs with
  | nil => intro st; rfl
  | cons i is ih =>
    intro st
    rw [List.foldl_cons, ih, renderStateStep_length]

/-- Claim C1 (code evaluation): on malformed inputs from_string never
panics and returns the error the code actually produces: the unknown
modifier and unknown key cases carry their token as claimed, but the empty
string fails with InvalidKey of the empty token, not with InvalidFormat as
the claim and the error-type documentation state, because Rust split on a
separator character yields one empty part for the empty string, so the
parts.is_empty guard that would produce InvalidFormat is unreachable. -/
theorem from_string_error_kinds :
    from_string "" = .error (.InvalidKey "") ∧
    from_string "hyper+a" = .error (.InvalidModifier "hyper") ∧
    from_string "foobar" = .error (.InvalidKey "foobar") :=
  ⟨by decide, by decide, by decide⟩

/-- Claim C2: display_string of any shortcut (in particular of any parsed
one) is the canonical capitalized form — modifiers in the fixed order Ctrl,
Alt, Shift, Cmd, each with a trailing plus, then the key display name — and
parsing ctrl+shift+p then displaying yields Ctrl+Shift+P. -/
theorem parse_display_canonical :
    (∀ sc : KeyboardShortcut, sc.display_string = canonicalDisplayForm sc) ∧
    (from_string "ctrl+shift+p").map KeyboardShortcut.display_string = .ok "Ctrl+Shift+P" := by
  constructor
  · rintro ⟨k, a, c, s, mc, cmd⟩
    cases c <;> cases a <;> cases s <;> cases cmd <;>
      simp [KeyboardShortcut.display_string, canonicalDisplayForm, String.append_assoc]
  · decide

/-- Claim C3: just_pressed is edge-triggered — starting from the fresh
state table, the result sequence is exactly the false-to-true transitions
of the satisfied-condition sequence, and for a concrete ctrl+s shortcut
over frames realizing the satisfied-sequence not-held, held, held,
not-held, held the results are true exactly twice, on the two transition
frames. -/
theorem just_pressed_edge_triggered :
    (∀ (sc : KeyboardShortcut) (frames : List InputFrame),
      runJustPressed sc frames ShortcutStates.initial =
        List.zipWith (fun cur prev => cur && !prev)
          (frames.map sc.currentFramePressed)
          (false :: frames.map sc.currentFramePressed)) ∧
    ([frameIdle, frameCtrlSHeld, frameCtrlSHeld, frameIdle, frameCtrlSHeld].map
        ctrlS.currentFramePressed = [false, true, true, false, true]) ∧
    runJustPressed ctrlS [frameIdle, frameCtrlSHeld, frameCtrlSHeld, frameIdle, frameCtrlSHeld]
        ShortcutStates.initial = [false, true, false, false, true] ∧
    (runJustPressed ctrlS [frameIdle, frameCtrlSHeld, frameCtrlSHeld, frameIdle, frameCtrlSHeld]
        ShortcutStates.initial).count true = 2 := by
  refine ⟨fun sc frames => runJustPressed_zipWith sc frames ShortcutStates.initial,
    by decide, by decide, by decide⟩

/-- Claim C4: inside just_pressed the Ctrl requirement is relaxed while Alt
and Shift are exact — when the shortcut requires Ctrl the condition accepts
either Ctrl or the command key; when it does not, it fails whenever either
is held; Alt and Shift of the input must equal the shortcut exactly. -/
theorem just_pressed_ctrl_relaxed_alt_shift_exact
    (sc : KeyboardShortcut) (i : InputFrame) (hkey : i.pressed sc.key = true) :
    (∀ states : ShortcutStates,
      (sc.justPressed i states).1 = (sc.currentFramePressed i && !(states sc.stateKey))) ∧
    (sc.modifiers.ctrl = true →
      (sc.currentFramePressed i = true ↔
        ((i.modifiers.ctrl = true ∨ i.modifiers.command = true) ∧
          i.modifiers.alt = sc.modifiers.alt ∧ i.modifiers.shift = sc.modifiers.shift))) ∧
    (sc.modifiers.ctrl = false →
      (sc.currentFramePressed i = true ↔
        (i.modifiers.ctrl = false ∧ i.modifiers.command = false ∧
          i.modifiers.alt = sc.modifiers.alt ∧ i.modifiers.shift = sc.modifiers.shift))) := by
  refine ⟨fun states => rfl, ?_⟩
  obtain ⟨k, sa, sctrl, ss, smc, scmd⟩ := sc
  obtain ⟨pressed, ia, ic, ish, imc, icmd⟩ := i
  simp only [KeyboardShortcut.currentFramePressed] at hkey ⊢
  revert hkey
  cases sctrl <;> cases sa <;> cases ss <;> cases ia <;> cases ic <;> cases ish <;> cases icmd <;>
    simp_all

/-- Concrete instantiation of the modifier policy theorem at ctrl+s with S
pressed and Ctrl held. -/
theorem just_pressed_ctrl_relaxed_witness :
    (∀ states : ShortcutStates,
      (ctrlS.justPressed frameCtrlSHeld states).1 =
        (ctrlS.currentFramePressed frameCtrlSHeld && !(states ctrlS.stateKey))) ∧
    (ctrlS.modifiers.ctrl = true →
      (ctrlS.currentFramePressed frameCtrlSHeld = true ↔
        ((frameCtrlSHeld.modifiers.ctrl = true ∨ frameCtrlSHeld.modifiers.command = true) ∧
          frameCtrlSHeld.modifiers.alt = ctrlS.modifiers.alt ∧
          frameCtrlSHeld.modifiers.shift = ctrlS.modifiers.shift))) ∧
    (ctrlS.modifiers.ctrl = false →
      (ctrlS.currentFramePressed frameCtrlSHeld = true ↔
        (frameCtrlSHeld.modifiers.ctrl = false ∧ frameCtrlSHeld.modifiers.command = false ∧
          frameCtrlSHeld.modifiers.alt = ctrlS.modifiers.alt ∧
          frameCtrlSHeld.modifiers.shift = ctrlS.modifiers.shift))) :=
  just_pressed_ctrl_relaxed_alt_shift_exact ctrlS frameCtrlSHeld (by decide)

/-- Claim C10: a pure command shortcut (command required, Ctrl not) can
never fire through just_pressed — on any frame where the command key is
held the stored satisfied flag is false, so the call returns false — even
though matches for the same shortcut only succeeds when command is held;
and cmd+s indeed parses to such a shortcut. -/
theorem cmd_shortcut_unfireable
    (sc : KeyboardShortcut) (hcmd : sc.modifiers.command = true)
    (hctrl : sc.modifiers.ctrl = false) (i : InputFrame) (hheld : i.modifiers.command = true)
    (states : ShortcutStates) :
    (sc.justPressed i states).1 = false ∧
    (∀ k m, sc.matches k m = true → m.command = true) ∧
    from_string "cmd+s" = .ok cmdS := by
  refine ⟨?_, ?_, by decide⟩
  · simp [KeyboardShortcut.justPressed, KeyboardShortcut.currentFramePressed, hheld, hctrl]
  · intro k m hm
    simp only [KeyboardShortcut.matches, Bool.and_eq_true, beq_iff_eq] at hm
    rw [← hm.2]
    exact hcmd

/-- Concrete instantiation of the command-shortcut theorem at cmd+s with S
pressed and command held. -/
theorem cmd_shortcut_unfireable_witness :
    ((cmdS.justPressed frameCmdSHeld ShortcutStates.initial).1 = false ∧
      (∀ k m, cmdS.matches k m = true → m.command = true) ∧
      from_string "cmd+s" = .ok cmdS) :=
  cmd_shortcut_unfireable cmdS rfl rfl frameCmdSHeld rfl ShortcutStates.initial

/-- Claim C5: switch_theme is atomic on failure — when the provider is
absent or yields no theme for the requested id and current mode, the result
is the ThemeNotFound error with the title bar (and context) unchanged; on
success the provider theme is applied and the theme id recorded. -/
theorem switch_theme_atomic (tb : TitleBar) (ctx : Ctx) (theme_id : String) :
    ((tb.theme_provider = none ∨
        ∃ p, tb.theme_provider = some p ∧ p.getTitleBarTheme theme_id tb.theme_mode = none) →
      tb.switch_theme ctx theme_id = (tb, ctx, .error ThemeError.ThemeNotFound)) ∧
    (∀ p theme, tb.theme_provider = some p →
      p.getTitleBarTheme theme_id tb.theme_mode = some theme →
      ∃ ctx2, tb.switch_theme ctx theme_id =
        ({ tb.apply_theme theme with current_theme_id := some theme_id }, ctx2, .ok ())) := by
  constructor
  · rintro (hnone | ⟨p, hp, hth⟩)
    · simp [TitleBar.switch_theme, hnone]
    · simp [TitleBar.switch_theme, hp, hth]
  · intro p theme hp hth
    rcases hv : p.getEguiVisuals theme_id tb.theme_mode with _ | v
    · exact ⟨ctx, by simp [TitleBar.switch_theme, hp, hth, hv]⟩
    · exact ⟨{ ctx with visuals := v }, by simp [TitleBar.switch_theme, hp, hth, hv]⟩

/-- Concrete instantiation of switch_theme atomicity: a title bar without a
provider is returned unchanged together with ThemeNotFound. -/
theorem switch_theme_atomic_witness :
    lightTitleBar.switch_theme ctx0 "ocean" =
      (lightTitleBar, ctx0, .error ThemeError.ThemeNotFound) :=
  (switch_theme_atomic lightTitleBar ctx0 "ocean").1 (Or.inl rfl)

/-- Claim C6 counterexample: on the Linux branch a failed gsettings command
does not force a false result — with GTK_THEME set to a dark theme name the
function returns true, refuting the claim that every platform branch
returns false whenever the external query command errors. -/
theorem detect_dark_mode_linux_env_counterexample :
    detect_system_dark_mode .linux (.error ()) (.ok "Adwaita-dark") = true := by decide

/-- Claim C6 (amended): a failed query command yields false on Windows and
macOS; on Linux a failed command falls back to GTK_THEME and yields false
when that is also unavailable; unknown platforms always yield false; and a
title bar in System mode under failed detection gets exactly the built-in
light theme applied, with no error. -/
theorem failed_detection_defaults_to_light (tb : TitleBar)
    (hmode : tb.theme_mode = ThemeMode.System) :
    (∀ env, detect_system_dark_mode .windows (.error ()) env = false) ∧
    (∀ env, detect_system_dark_mode .macos (.error ()) env = false) ∧
    detect_system_dark_mode .linux (.error ()) (.error ()) = false ∧
    (∀ cmd env, detect_system_dark_mode .other cmd env = false) ∧
    tb.apply_theme_mode false = tb.apply_theme TitleBarTheme.light := by
  refine ⟨fun env => rfl, fun env => rfl, rfl, fun cmd env => rfl, ?_⟩
  simp [TitleBar.apply_theme_mode, TitleBar.apply_theme, hmode]

/-- Concrete instantiation of the failed-detection theorem on a System-mode
title bar, with every detection input failed. -/
theorem failed_detection_defaults_to_light_witness :
    detect_system_dark_mode .windows (.error ()) (.error ()) = false ∧
    detect_system_dark_mode .macos (.error ()) (.error ()) = false ∧
    detect_system_dark_mode .linux (.error ()) (.error ()) = false ∧
    detect_system_dark_mode .other (.ok "Dark") (.ok "Dark") = false ∧
    systemTitleBar.apply_theme_mode false = systemTitleBar.apply_theme TitleBarTheme.light :=
  ⟨(failed_detection_defaults_to_light systemTitleBar rfl).1 (.error ()),
    (failed_detection_defaults_to_light systemTitleBar rfl).2.1 (.error ()),
    (failed_detection_defaults_to_light systemTitleBar rfl).2.2.1,
    (failed_detection_defaults_to_light systemTitleBar rfl).2.2.2.1 (.ok "Dark") (.ok "Dark"),
    (failed_detection_defaults_to_light systemTitleBar rfl).2.2.2.2⟩

/-- Claim C7: light_with_overrides with only the background override set
equals light() with exactly the background color replaced; and in general
every override argument that is some replaces exactly its own field, every
none inherits the light() value, and the three fields without an override
argument always keep the light() value. -/
theorem light_with_overrides_fieldwise :
    (∀ X, TitleBarTheme.light_with_overrides (some X) none none none none none none none none
        none none none none none none none none =
      { TitleBarTheme.light with background_color := X }) ∧
    (∀ bg hv chv cic mxc rsc mnc tc mtc mts mhc ksc sbc stc shc ssc sksc,
      (TitleBarTheme.light_with_overrides bg hv chv cic mxc rsc mnc tc mtc mts mhc ksc sbc stc
          shc ssc sksc).background_color = bg.getD TitleBarTheme.light.background_color ∧
      (TitleBarTheme.light_with_overrides bg hv chv cic mxc rsc mnc tc mtc mts mhc ksc sbc stc
          shc ssc sksc).hover_color = hv.getD TitleBarTheme.light.hover_color ∧
      (TitleBarTheme.light_with_overrides bg hv chv cic mxc rsc mnc tc mtc mts mhc ksc sbc stc
          shc ssc sksc).close_hover_color = chv.getD TitleBarTheme.light.close_hover_color ∧
      (TitleBarTheme.light_with_overrides bg hv chv cic mxc rsc mnc tc mtc mts mhc ksc sbc stc
          shc ssc sksc).close_icon_color = cic.getD TitleBarTheme.light.close_icon_color ∧
      (TitleBarTheme.light_with_overrides bg hv chv cic mxc rsc mnc tc mtc mts mhc ksc sbc stc
          shc ssc sksc).maximize_icon_color = mxc.getD TitleBarTheme.light.maximize_icon_color ∧
      (TitleBarTheme.light_with_overrides bg hv chv cic mxc rsc mnc tc mtc mts mhc ksc sbc stc
          shc ssc sksc).restore_icon_color = rsc.getD TitleBarTheme.light.restore_icon_color ∧
      (TitleBarTheme.light_with_overrides bg hv chv cic mxc rsc mnc tc mtc mts mhc ksc sbc stc
          shc ssc sksc).minimize_icon_color = mnc.getD TitleBarTheme.light.minimize_icon_color ∧
      (TitleBarTheme.light_with_overrides bg hv chv cic mxc rsc mnc tc mtc mts mhc ksc sbc stc
          shc ssc sksc).title_color = tc.getD TitleBarTheme.light.title_color ∧
      (TitleBarTheme.light_with_overrides bg hv chv cic mxc rsc mnc tc mtc mts mhc ksc sbc stc
          shc ssc sksc).menu_text_color = mtc.getD TitleBarTheme.light.menu_text_color ∧
      (TitleBarTheme.light_with_overrides bg hv chv cic mxc rsc mnc tc mtc mts mhc ksc sbc stc
          shc ssc sksc).menu_text_size = mts.getD TitleBarTheme.light.menu_text_size ∧
      (TitleBarTheme.light_with_overrides bg hv chv cic mxc rsc mnc tc mtc mts mhc ksc sbc stc
          shc ssc sksc).menu_hover_color = mhc.getD TitleBarTheme.light.menu_hover_color ∧
      (TitleBarTheme.light_with_overrides bg hv chv cic mxc rsc mnc tc mtc mts mhc ksc sbc stc
          shc ssc sksc).keyboard_selection_color =
        ksc.getD TitleBarTheme.light.keyboard_selection_color ∧
      (TitleBarTheme.light_with_overrides bg hv chv cic mxc rsc mnc tc mtc mts mhc ksc sbc stc
          shc ssc sksc).submenu_background_color =
        sbc.getD TitleBarTheme.light.submenu_background_color ∧
      (TitleBarTheme.light_with_overrides bg hv chv cic mxc rsc mnc tc mtc mts mhc ksc sbc stc
          shc ssc sksc).submenu_text_color = stc.getD TitleBarTheme.light.submenu_text_color ∧
      (TitleBarTheme.light_with_overrides bg hv chv cic mxc rsc mnc tc mtc mts mhc ksc sbc stc
          shc ssc sksc).submenu_text_size = TitleBarTheme.light.submenu_text_size ∧
      (TitleBarTheme.light_with_overrides bg hv chv cic mxc rsc mnc tc mtc mts mhc ksc sbc stc
          shc ssc sksc).submenu_hover_color = shc.getD TitleBarTheme.light.submenu_hover_color ∧
      (TitleBarTheme.light_with_overrides bg hv chv cic mxc rsc mnc tc mtc mts mhc ksc sbc stc
          shc ssc sksc).submenu_disabled_color = TitleBarTheme.light.submenu_disabled_color ∧
      (TitleBarTheme.light_with_overrides bg hv chv cic mxc rsc mnc tc mtc mts mhc ksc sbc stc
          shc ssc sksc).submenu_shortcut_color =
        ssc.getD TitleBarTheme.light.submenu_shortcut_color ∧
      (TitleBarTheme.light_with_overrides bg hv chv cic mxc rsc mnc tc mtc mts mhc ksc sbc stc
          shc ssc sksc).submenu_border_color = TitleBarTheme.light.submenu_border_color ∧
      (TitleBarTheme.light_with_overrides bg hv chv cic mxc rsc mnc tc mtc mts mhc ksc sbc stc
          shc ssc sksc).submenu_keyboard_selection_color =
        sksc.getD TitleBarTheme.light.submenu_keyboard_selection_color) := by
  constructor
  · intro X
    rfl
  · intro bg hv chv cic mxc rsc mnc tc mtc mts mhc ksc sbc stc shc ssc sksc
    exact ⟨rfl, rfl, rfl, rfl, rfl, rfl, rfl, rfl, rfl, rfl, rfl, rfl, rfl, rfl, rfl, rfl, rfl,
      rfl, rfl, rfl⟩

/-- Claim C8: cloning a SubMenuItem keeps label, shortcut, enabled and
separator_after, drops the callback to none, clones the children
recursively, and therefore no clone at any depth carries a callback. -/
theorem clone_drops_callback (item : SubMenuItem) :
    item.clone.label = item.label ∧
    item.clone.shortcut = item.shortcut ∧
    item.clone.enabled = item.enabled ∧
    item.clone.separator_after = item.separator_after ∧
    item.clone.callback = none ∧
    item.clone.children = item.children.map SubMenuItem.clone ∧
    item.clone.callbackFreeDeep = true := by
  obtain ⟨l, s, e, sep, cb, ch⟩ := item
  refine ⟨?_, ?_, ?_, ?_, ?_, ?_, callbackFreeDeep_clone _⟩ <;> (rw [clone_mk]; rfl)

/-- Claim C9 counterexample: adding a plain image icon to a title bar with
empty icon lists extends custom_icons to length one but leaves
icon_animation_states empty, so the two lists are not aligned 1:1 after
add_icon. -/
theorem icon_states_misaligned_counterexample :
    (lightTitleBar.add_icon (.Image "settings.svg") none none none).icon_animation_states.length
        = 0 ∧
    (lightTitleBar.add_icon (.Image "settings.svg") none none none).custom_icons.length = 1 ∧
    (lightTitleBar.add_icon (.Image "settings.svg") none none none).icon_animation_states.length ≠
      (lightTitleBar.add_icon (.Image "settings.svg") none none none).custom_icons.length :=
  ⟨rfl, rfl, by decide⟩

/-- Claim C9 (amended): the animation-state list never outgrows the icon
list — add_icon preserves that bound for every icon kind, add_animated_icon
preserves exact alignment when it already holds (only the Animated variant
grows the state list), and render_custom_icons restores exact alignment:
after it the two lengths are equal. -/
theorem icon_states_alignment (tb : TitleBar)
    (h : tb.icon_animation_states.length ≤ tb.custom_icons.length) :
    (∀ icon cb tt sc, (tb.add_icon icon cb tt sc).icon_animation_states.length ≤
        (tb.add_icon icon cb tt sc).custom_icons.length) ∧
    (∀ draw cb tt sc, tb.icon_animation_states.length = tb.custom_icons.length →
      (tb.add_animated_icon draw cb tt sc).icon_animation_states.length =
        (tb.add_animated_icon draw cb tt sc).custom_icons.length) ∧
    (∀ u, (tb.render_custom_icons u).icon_animation_states.length =
        (tb.render_custom_icons u).custom_icons.length) := by
  refine ⟨?_, ?_, ?_⟩
  · intro icon cb tt sc
    simp only [TitleBar.add_icon, List.getLastD_concat]
    rcases icon with _ | _ | _ | _ <;> simp <;> omega
  · intro draw cb tt sc heq
    simp only [TitleBar.add_animated_icon, TitleBar.add_icon, List.getLastD_concat]
    simp [heq]
  · intro u
    unfold TitleBar.render_custom_icons
    split
    · rename_i hemp
      have h0 : tb.custom_icons.length = 0 :=
        List.isEmpty_iff_length_eq_zero.mp hemp
      omega
    · dsimp only
      rw [foldl_renderStateStep_length]
      split
      · rename_i hlt
        rw [List.length_append, List.length_replicate]
        omega
      · rename_i hge
        omega

/-- Concrete instantiation of the alignment theorem on the empty title bar:
the bound after adding an image icon, exact alignment after adding an
animated icon, and equality after rendering. -/
theorem icon_states_alignment_witness :
    (lightTitleBar.add_icon (.Image "bell.svg") none none none).icon_animation_states.length ≤
      (lightTitleBar.add_icon (.Image "bell.svg") none none none).custom_icons.length ∧
    (lightTitleBar.add_animated_icon () none none none).icon_animation_states.length =
      (lightTitleBar.add_animated_icon () none none none).custom_icons.length ∧
    (lightTitleBar.render_custom_icons (fun _ st => st)).icon_animation_states.length =
      (lightTitleBar.render_custom_icons (fun _ st => st)).custom_icons.length :=
  ⟨(icon_states_alignment lightTitleBar (by decide)).1 (.Image "bell.svg") none none none,
    (icon_states_alignment lightTitleBar (by decide)).2.1 () none none none (by decide),
    (icon_states_alignment lightTitleBar (by decide)).2.2 (fun _ st => st)⟩

end EguiDesktop
